import Mathlib

/-!
Verification of the pagination / layout / rendering core of the zitie
(tianzige worksheet generator) repository, shallowly embedded from
`src/app.py` and `src/dataloader.py`.

Machine integers are modelled as `Nat` (Python integers are unbounded and
every quantity here is nonnegative); Python's `math.ceil(a / b)` on
nonnegative integers is modelled as the exact rational ceiling.
-/

namespace Zitie

/-- A4 page width in pixels, constant `PAGE_WIDTH` of src/app.py. -/
def PAGE_WIDTH : Nat := 2480

/-- A4 page height in pixels, constant `PAGE_HEIGHT` of src/app.py. -/
def PAGE_HEIGHT : Nat := 3508

/-- Python's `math.ceil(n / c)` for nonnegative integers `n` and positive `c`,
via the standard integer identity `⌈n / c⌉ = (n + c - 1) div c`; the lemma
`math_ceil_div_eq_ceil` below equates it with the exact rational ceiling. -/
def math_ceil_div (n c : Nat) : Nat := (n + c - 1) / c

/-- `layout_chars` of src/app.py (lines 387-391): starting from an empty
result list, extend it with `rep` copies of each character in order. -/
def layout_chars (chars : List Char) (rep : Nat) : List Char :=
  chars.foldl (fun result ch => result ++ List.replicate rep ch) []

/-- The whitespace filter of `generate_multi_page_images`
(src/app.py line 504): `[c for c in text if not c.isspace()]`, with the
Python `str.isspace` predicate passed in as a parameter. -/
def strip_whitespace (isSpace : Char → Bool) (text : List Char) : List Char :=
  text.filter (fun c => !(isSpace c))

/-- Python's `str.isspace` restricted to the ASCII whitespace characters;
used to instantiate concrete scenarios. -/
def pyIsSpace (c : Char) : Bool :=
  c == ' ' || c == '\t' || c == '\n' || c == '\x0b' || c == '\x0c' || c == '\r'

/-- The number of demonstration rows per page (src/app.py lines 512-516):
`ceil(rows / 2)` when a blank row follows each demonstration row,
otherwise all `rows` rows. -/
def demo_rows_per_page (rows : Nat) (blank_row_after_each : Bool) : Nat :=
  if blank_row_after_each then math_ceil_div rows 2 else rows

/-- `page_capacity` of src/app.py line 519: demonstration cells per page. -/
def page_capacity (cols rows : Nat) (blank_row_after_each : Bool) : Nat :=
  cols * demo_rows_per_page rows blank_row_after_each

/-- `total_pages` of src/app.py line 520:
`max(1, math.ceil(len(chars) / page_capacity))`. -/
def total_pages (nchars cap : Nat) : Nat := max 1 (math_ceil_div nchars cap)

/-- The slice `chars[start:end]` with `start = i * cap`, `end = start + cap`
taken by page `i` (src/app.py lines 525-527). -/
def page_chunk (chars : List Char) (cap i : Nat) : List Char :=
  (chars.drop (i * cap)).take cap

/-- The last-page fill step of src/app.py lines 530-532: when requested and
the chunk is a nonempty proper prefix of a page, pad it with copies of its
last character up to the page capacity. -/
def fill_chunk (fill_last_page : Bool) (cap : Nat) (page_chars : List Char) :
    List Char :=
  if fill_last_page ∧ page_chars.length < cap ∧ page_chars ≠ [] then
    page_chars ++ List.replicate (cap - page_chars.length) (page_chars.getLastD ' ')
  else page_chars

/-- The pagination portion of `generate_multi_page_images`
(src/app.py lines 486-548): strip whitespace, bail out on an empty result,
expand by the repeat count, and cut the stream into per-page chunks,
optionally filling the last one. Rendering of each chunk is factored out
into `generate_multi_page_images` below. -/
def generate_multi_page_chunks (isSpace : Char → Bool) (text : List Char)
    (cols rows rep : Nat) (fill_last_page blank_row_after_each : Bool) :
    List (List Char) :=
  let chars0 := strip_whitespace isSpace text
  if chars0 = [] then []
  else
    let chars := layout_chars chars0 rep
    let cap := page_capacity cols rows blank_row_after_each
    (List.range (total_pages chars.length cap)).map
      (fun i => fill_chunk fill_last_page cap (page_chunk chars cap i))

/-- `generate_multi_page_images` of src/app.py lines 486-548: one rendered
page per chunk, with the single-page renderer abstracted as `render`. -/
def generate_multi_page_images {α : Type} (render : List Char → α)
    (isSpace : Char → Bool) (text : List Char) (cols rows rep : Nat)
    (fill_last_page blank_row_after_each : Bool) : List α :=
  (generate_multi_page_chunks isSpace text cols rows rep fill_last_page
      blank_row_after_each).map render

/-- `images_to_pdf` of src/app.py lines 551-559: an empty image list yields
the empty byte string, otherwise the pages are handed to the PDF encoder
(Pillow's `save(format="PDF")`, abstracted as `encode`). -/
def images_to_pdf {α : Type} (encode : List α → List Nat) (images : List α) :
    List Nat :=
  if images.isEmpty then [] else encode images

/-- `get_grid_color` of src/app.py lines 278-284. -/
def get_grid_color (name : String) : Nat × Nat × Nat :=
  if name = "绿色" then (0, 160, 0)
  else if name = "红色" then (200, 0, 0)
  else (0, 0, 0)

/-- `get_text_color` of src/app.py lines 287-292. -/
def get_text_color (name : String) : Nat × Nat × Nat :=
  if name = "绿色" then (0, 160, 0)
  else if name = "红色" then (200, 0, 0)
  else (0, 0, 0)

/-- `get_demo_alpha` of src/app.py lines 295-309: tracing-depth name to
alpha value, defaulting to 110. -/
def get_demo_alpha (level : String) : Nat :=
  if level = "非常深" then 220
  else if level = "深" then 190
  else if level = "较深" then 160
  else if level = "略浅" then 130
  else if level = "适中" then 110
  else if level = "非常浅" then 80
  else if level = "白色（不可见）" then 0
  else if level = "空芯" then 200
  else 110

/-- A drawing primitive emitted on the grid layer: an axis-aligned
rectangle outline or a line segment, with color and stroke width, as issued
by the `draw.rectangle` / `draw.line` calls of src/app.py. -/
inductive Prim where
  | rect : Nat → Nat → Nat → Nat → (Nat × Nat × Nat) → Nat → Prim
  | line : Nat → Nat → Nat → Nat → (Nat × Nat × Nat) → Nat → Prim
deriving DecidableEq, Repr

/-- `draw_tianzige` of src/app.py lines 312-319: outer box plus center
cross. -/
def draw_tianzige (x y size : Nat) (color : Nat × Nat × Nat) : List Prim :=
  let x2 := x + size
  let y2 := y + size
  [Prim.rect x y x2 y2 color 2,
   Prim.line (x + size / 2) y (x + size / 2) y2 color 1,
   Prim.line x (y + size / 2) x2 (y + size / 2) color 1]

/-- `draw_mizige` of src/app.py lines 322-331: outer box, both diagonals
and center cross. -/
def draw_mizige (x y size : Nat) (color : Nat × Nat × Nat) : List Prim :=
  let x2 := x + size
  let y2 := y + size
  [Prim.rect x y x2 y2 color 2,
   Prim.line x y x2 y2 color 1,
   Prim.line x2 y x y2 color 1,
   Prim.line (x + size / 2) y (x + size / 2) y2 color 1,
   Prim.line x (y + size / 2) x2 (y + size / 2) color 1]

/-- `draw_huigongge` of src/app.py lines 334-343: outer box plus two inset
boxes, at margins `size // 6` and `2 * (size // 6)`. -/
def draw_huigongge (x y size : Nat) (color : Nat × Nat × Nat) : List Prim :=
  let x2 := x + size
  let y2 := y + size
  let margin := size / 6
  let margin2 := margin * 2
  [Prim.rect x y x2 y2 color 2,
   Prim.rect (x + margin) (y + margin) (x2 - margin) (y2 - margin) color 1,
   Prim.rect (x + margin2) (y + margin2) (x2 - margin2) (y2 - margin2) color 1]

/-- `draw_square` of src/app.py lines 346-348: outer box only. -/
def draw_square (x y size : Nat) (color : Nat × Nat × Nat) : List Prim :=
  [Prim.rect x y (x + size) (y + size) color 2]

/-- `draw_jiugongge` of src/app.py lines 351-362: outer box plus internal
3x3 subdivision lines at `size // 3` and `2 * (size // 3)`. -/
def draw_jiugongge (x y size : Nat) (color : Nat × Nat × Nat) : List Prim :=
  let x2 := x + size
  let y2 := y + size
  let step := size / 3
  [Prim.rect x y x2 y2 color 2,
   Prim.line (x + step) y (x + step) y2 color 1,
   Prim.line (x + 2 * step) y (x + 2 * step) y2 color 1,
   Prim.line x (y + step) x2 (y + step) color 1,
   Prim.line x (y + 2 * step) x2 (y + 2 * step) color 1]

/-- `draw_grid` of src/app.py lines 365-384: dispatch on the grid style
name, defaulting to the plain box. -/
def draw_grid (x y size : Nat) (grid_type : String) (color : Nat × Nat × Nat) :
    List Prim :=
  if grid_type = "田字格" then draw_tianzige x y size color
  else if grid_type = "米字格" then draw_mizige x y size color
  else if grid_type = "回宫格" then draw_huigongge x y size color
  else if grid_type = "方格" then draw_square x y size color
  else if grid_type = "九宫格" then draw_jiugongge x y size color
  else draw_square x y size color

/-- One glyph placed on the transparent text overlay by `text_draw.text` in
`generate_single_page_image` (src/app.py lines 473-479): center position,
character, RGB fill and alpha. The resolved Pillow font handle is not
tracked here. -/
structure TextOp where
  cx : Nat
  cy : Nat
  ch : Char
  color : Nat × Nat × Nat
  alpha : Nat
deriving DecidableEq, Repr

/-- The two layers produced by `generate_single_page_image`: the grid-line
primitives drawn on the white base image and the glyph operations drawn on
the transparent overlay. -/
structure PageRender where
  gridOps : List Prim
  textOps : List TextOp
deriving DecidableEq, Repr

/-- Row-major cell traversal of the page
(`for r in range(rows): for c in range(cols):`, src/app.py line 438). -/
def page_cells (rows cols : Nat) : List (Nat × Nat) :=
  (List.range rows).flatMap (fun r => (List.range cols).map (fun c => (r, c)))

/-- One iteration of the cell loop of `generate_single_page_image`
(src/app.py lines 438-479): draw the grid decoration, then, on a
demonstration row, while characters and the demonstration-cell budget
remain and `show_demo` is set, place the next character centered in the
cell. The accumulator carries the layers built so far and the index of the
next unplaced character. -/
def page_cell_step (page_chars : List Char) (show_demo blank_row_after_each : Bool)
    (offset_x offset_y cell_size : Nat) (grid_type : String)
    (grid_color text_color : Nat × Nat × Nat) (alpha max_demo_cells : Nat)
    (acc : PageRender × Nat) (rc : Nat × Nat) : PageRender × Nat :=
  let st := acc.1
  let index := acc.2
  let x := offset_x + rc.2 * cell_size
  let y := offset_y + rc.1 * cell_size
  let gridOps := st.gridOps ++ draw_grid x y cell_size grid_type grid_color
  let is_demo_row : Bool :=
    if blank_row_after_each then rc.1 % 2 == 0 else true
  if show_demo = true ∧ is_demo_row = true ∧ index < page_chars.length ∧
      index < max_demo_cells then
    let ch := page_chars.getD index ' '
    let cx := x + cell_size / 2
    let cy := y + cell_size / 2
    (⟨gridOps, st.textOps ++ [⟨cx, cy, ch, text_color, alpha⟩]⟩, index + 1)
  else
    (⟨gridOps, st.textOps⟩, index)

/-- `generate_single_page_image` of src/app.py lines 394-483, modelled as
the pair of draw-operation lists for the two layers: geometry setup
followed by the row-major cell loop. Font resolution (`load_font`) affects
only the glyph outlines, not which operations are emitted, and is modelled
separately. -/
def generate_single_page_image (page_chars : List Char)
    (grid_type grid_color_name text_color_name demo_level : String)
    (cols rows : Nat) (show_demo blank_row_after_each : Bool) : PageRender :=
  let grid_color := get_grid_color grid_color_name
  let text_color := get_text_color text_color_name
  let alpha := get_demo_alpha demo_level
  let margin_x := 150
  let margin_y := 250
  let usable_width := PAGE_WIDTH - margin_x * 2
  let usable_height := PAGE_HEIGHT - margin_y * 2
  let cell_size := min (usable_width / cols) (usable_height / rows)
  let offset_x := (PAGE_WIDTH - cell_size * cols) / 2
  let offset_y := (PAGE_HEIGHT - cell_size * rows) / 2
  let max_demo_cells := cols * demo_rows_per_page rows blank_row_after_each
  ((page_cells rows cols).foldl
    (page_cell_step page_chars show_demo blank_row_after_each offset_x offset_y
      cell_size grid_type grid_color text_color alpha max_demo_cells)
    (⟨[], []⟩, 0)).1

/-- A resolved glyph source: a TrueType font opened from a path at a size,
or Pillow's built-in default bitmap font (`ImageFont.load_default()`). -/
inductive Font where
  | truetype : String → Nat → Font
  | load_default : Font
deriving DecidableEq, Repr

/-- The font metadata dictionary returned by `load_font` of src/app.py. -/
structure FontInfo where
  path : String
  family : String
  style : String
  source : String
deriving DecidableEq, Repr

/-- The file-system and font-parsing environment `load_font` runs against:
whether `ImageFont.truetype(path, size)` succeeds, the family and style
names it reports, and the name of the built-in default font. -/
structure FontEnv where
  ok : String → Nat → Bool
  family : String → String
  style : String → String
  default_family : String
  default_style : String

/-- The inner `try_path` of `load_font` (src/app.py lines 232-244): attempt
to open a TrueType font; on any exception report failure. -/
def try_path (env : FontEnv) (size : Nat) (path source_label : String) :
    Option (Font × FontInfo) :=
  if env.ok path size then
    some (Font.truetype path size,
      ⟨path, env.family path, env.style path, source_label⟩)
  else none

/-- The fixed fallback list of common CJK font filenames
(src/app.py lines 254-258). -/
def font_fallbacks : List String := ["simkai.ttf", "simhei.ttf", "msyh.ttc"]

/-- The fallback loop of `load_font` (src/app.py lines 259-262): first
fallback font that opens, with its source label. -/
def try_fallbacks (env : FontEnv) (size : Nat) : List String → Option (Font × FontInfo)
  | [] => none
  | fb :: rest =>
    match try_path env size fb ("回退字体（" ++ fb ++ "）") with
    | some r => r
    | none => try_fallbacks env size rest

/-- `load_font` of src/app.py lines 226-273: try the requested path if
non-empty, then the fixed CJK fallbacks, then Pillow's built-in default. -/
def load_font (env : FontEnv) (font_path : String) (size : Nat) :
    Font × FontInfo :=
  let requested :=
    if font_path ≠ "" then try_path env size font_path "用户选择字体" else none
  match requested with
  | some r => r
  | none =>
    match try_fallbacks env size font_fallbacks with
    | some r => r
    | none =>
      (Font.load_default,
       ⟨"Pillow 内置默认字体（可能不支持中文）", env.default_family,
        env.default_style, "Pillow 默认字体"⟩)

/-- A JSON value found under a poem's tag field in the corpus files read by
src/dataloader.py: a string, an array, or any other value together with its
Python `str()` rendering. -/
inductive TagVal where
  | str : String → TagVal
  | arr : List TagVal → TagVal
  | other : String → TagVal

/-- One poem record of a corpus JSON file, as consumed by
`PlainDataLoader.poems_as_text`: `get_tag` models `poem.get(tag, [])`
(total, with the empty-list default), the remaining fields model
`poem.get('title', '')` and friends (`sect` stands for the `section` key,
which is a reserved word here). -/
structure Poem where
  get_tag : String → TagVal
  title : String
  rhythmic : String
  chapter : String
  sect : String
  author : String

/-- One dataset entry of `datas.json` as used by `PlainDataLoader`:
relative path, tag field name, and excluded file names (with `[]` as the
`configs.get("excludes", [])` default). -/
structure DatasetConfig where
  path : String
  tag : String
  excludes : List String

/-- The loader configuration: `top_level_path` (hard-coded to
`./chinese-poetry/` in src/dataloader.py line 14) and the dataset registry. -/
structure LoaderConfig where
  top_level_path : String
  datasets : List (String × DatasetConfig)

/-- The file-system environment `PlainDataLoader` runs against:
`os.path.isfile`, `os.listdir` (`none` models the `FileNotFoundError` it
raises on a missing directory) and reading-plus-JSON-parsing a poem file
(`none` models an `open`/`json.load` exception). -/
structure CorpusFS where
  isFile : String → Bool
  listdir : String → Option (List String)
  readJson : String → Option (List Poem)

/-- `os.path.join` for the paths occurring here: concatenation, inserting a
slash when the left part does not already end in one. -/
def os_path_join (a b : String) : String :=
  if a.toList.getLast? = some '/' then a ++ b else a ++ "/" ++ b

/-- Python string truthiness composed with `str.strip`, as in
`p.strip()` used as a filter (src/dataloader.py line 88): true when the
string contains a non-whitespace character. Python `str.strip` is modelled
by `String.trim`. -/
def strip_truthy (s : String) : Bool := !(s.trim = "")

/-- The paragraph-to-text conversion inside `collect_from_file`
(src/dataloader.py lines 83-90): strip a string, join the nonblank string
items of a list with newlines, or fall back to the `str()` rendering. -/
def para_text (v : TagVal) : String :=
  match v with
  | TagVal.str s => s.trim
  | TagVal.arr items =>
    String.intercalate "\n"
      (items.filterMap (fun p =>
        match p with
        | TagVal.str s => if strip_truthy s then some s else none
        | _ => none))
  | TagVal.other s => s

/-- The title header prepended to each poem
(src/dataloader.py lines 92-96). -/
def poem_title (p : Poem) : String :=
  p.title ++ p.rhythmic ++ p.chapter ++ p.sect ++ "·" ++ p.author

/-- The per-poem body of `collect_from_file` (src/dataloader.py
lines 82-97): skip poems whose extracted text is empty, otherwise emit
title line plus text. -/
def collect_from_poem (tag : String) (p : Poem) : Option String :=
  let text := para_text (p.get_tag tag)
  if text ≠ "" then some (poem_title p ++ "\n" ++ text) else none

/-- `collect_from_file` of src/dataloader.py lines 78-97: read and parse
one JSON file and collect the texts of its poems; a read or parse failure
raises. -/
def collect_from_file (fs : CorpusFS) (tag filepath : String) :
    Except String (List String) :=
  match fs.readJson filepath with
  | none => Except.error ("cannot open or parse " ++ filepath)
  | some poems => Except.ok (poems.filterMap (collect_from_poem tag))

/-- `PlainDataLoader.poems_as_text` of src/dataloader.py lines 60-111.
`Except.error` models an uncaught Python exception; an `Except.ok` result
carries the warnings printed and the texts returned. An unknown dataset
name prints a warning and returns the empty list; a known dataset whose
backing path is neither a file nor a listable directory raises
`FileNotFoundError` out of `os.listdir`. -/
def poems_as_text (fs : CorpusFS) (cfg : LoaderConfig) (target : String) :
    Except String (List String × List String) :=
  match (cfg.datasets.lookup target : Option DatasetConfig) with
  | none =>
    Except.ok ([target ++ " is not included in datas.json as a dataset"], [])
  | some configs =>
    let full_path := os_path_join cfg.top_level_path configs.path
    if fs.isFile full_path then
      (collect_from_file fs configs.tag full_path).map (fun texts => ([], texts))
    else
      match fs.listdir full_path with
      | none => Except.error ("FileNotFoundError: " ++ full_path)
      | some subpaths =>
        (subpaths.foldlM (fun acc filename =>
            if filename ∈ configs.excludes then Except.ok acc
            else (collect_from_file fs configs.tag
                (os_path_join full_path filename)).map (fun t => acc ++ t))
          []).map (fun texts => ([], texts))

/-- A definition following the words of the specification, for comparison
with the code: `perPageCapacity = columns × (rows if !skip_alternate_rows
else ceil(rows/2))`, with the ceiling taken exactly. -/
def perPageCapacity_by_spec (cols rows : Nat) (skip_alternate_rows : Bool) : Nat :=
  cols * (if skip_alternate_rows then Int.toNat ⌈(rows : ℚ) / 2⌉ else rows)

/-- A definition following the words of the specification, for comparison
with the code: `totalPages = max(1, ceil(len(characterStream) /
perPageCapacity))`, with the ceiling taken exactly. -/
def totalPages_by_spec (nchars cap : Nat) : Nat :=
  max 1 (Int.toNat ⌈(nchars : ℚ) / (cap : ℚ)⌉)

/-- A definition following the words of the specification, for comparison
with `draw_huigongge` of the source: nested-box grid as "outer rectangle
plus two inset rectangles at margins size/6 and size/3 from the cell
edge". -/
def huigongge_by_spec (x y size : Nat) (color : Nat × Nat × Nat) : List Prim :=
  let x2 := x + size
  let y2 := y + size
  let m1 := size / 6
  let m2 := size / 3
  [Prim.rect x y x2 y2 color 2,
   Prim.rect (x + m1) (y + m1) (x2 - m1) (y2 - m1) color 1,
   Prim.rect (x + m2) (y + m2) (x2 - m2) (y2 - m2) color 1]

def font_env_for_tests : FontEnv :=
  ⟨fun p _ => p == "simhei.ttf", fun _ => "SimHei", fun _ => "Regular",
   "Aileron", "Regular"⟩

def corpus_fs_missing : CorpusFS :=
  ⟨fun _ => false, fun _ => none, fun _ => none⟩

def loader_cfg_for_tests : LoaderConfig :=
  ⟨"./chinese-poetry/", [("tang", ⟨"json/", "paragraphs", []⟩)]⟩

/-! Helper lemmas about the embedded definitions. -/

lemma le_ceil_formula_mul (n c : Nat) (hc : 0 < c) : n ≤ (n + c - 1) / c * c := by
  have h := Nat.div_add_mod (n + c - 1) c
  have hr : (n + c - 1) % c < c := Nat.mod_lt _ hc
  have h2 : (n + c - 1) - (n + c - 1) % c = c * ((n + c - 1) / c) :=
    Nat.sub_eq_of_eq_add h.symm
  calc n = (n + c - 1) - (c - 1) := by omega
    _ ≤ (n + c - 1) - (n + c - 1) % c := Nat.sub_le_sub_left (by omega) _
    _ = c * ((n + c - 1) / c) := h2
    _ = (n + c - 1) / c * c := Nat.mul_comm _ _

/-- The integer formula `(n + c - 1) div c` used by `math_ceil_div` computes
the exact rational ceiling of `n / c`, so the embedding agrees with
Python's `math.ceil` of true division for every positive divisor. -/
lemma math_ceil_div_eq_ceil (n c : Nat) (hc : 0 < c) :
    (math_ceil_div n c : ℤ) = ⌈(n : ℚ) / (c : ℚ)⌉ := by
  have hc0 : (0 : ℚ) < (c : ℚ) := by exact_mod_cast hc
  symm
  apply le_antisymm
  · rw [Int.ceil_le]
    push_cast
    rw [div_le_iff₀ hc0]
    have h := le_ceil_formula_mul n c hc
    unfold math_ceil_div
    exact_mod_cast h
  · have hb : (math_ceil_div n c) * c < n + c := by
      have h1 : (n + c - 1) / c * c ≤ n + c - 1 := Nat.div_mul_le_self _ _
      unfold math_ceil_div
      calc (n + c - 1) / c * c ≤ n + c - 1 := h1
        _ < n + c := by omega
    have hbq : ((math_ceil_div n c : ℚ)) * (c : ℚ) < (n : ℚ) + (c : ℚ) := by
      exact_mod_cast hb
    rw [show (math_ceil_div n c : ℤ) = ((math_ceil_div n c : ℤ) - 1) + 1 by ring,
      Int.add_one_le_iff, Int.lt_ceil]
    rw [lt_div_iff₀ hc0]
    push_cast
    linarith [hbq]

lemma perPageCapacity_eq (cols rows : Nat) (skip : Bool) :
    perPageCapacity_by_spec cols rows skip = page_capacity cols rows skip := by
  unfold perPageCapacity_by_spec page_capacity demo_rows_per_page
  congr 1
  cases skip with
  | false => rfl
  | true =>
    simp only [if_true]
    have h := math_ceil_div_eq_ceil rows 2 (by norm_num)
    rw [show ((2 : ℕ) : ℚ) = (2 : ℚ) by norm_num] at h
    rw [← h, Int.toNat_natCast]

lemma totalPages_by_spec_eq (n cap : Nat) (hcap : 0 < cap) :
    totalPages_by_spec n cap = total_pages n cap := by
  unfold totalPages_by_spec total_pages
  congr 1
  rw [← math_ceil_div_eq_ceil n cap hcap, Int.toNat_natCast]

lemma page_capacity_pos (cols rows : Nat) (blank : Bool) (hc : 0 < cols)
    (hr : 0 < rows) : 0 < page_capacity cols rows blank := by
  unfold page_capacity demo_rows_per_page math_ceil_div
  apply Nat.mul_pos hc
  cases blank with
  | false => exact hr
  | true =>
    simp only [if_true]
    exact Nat.div_pos (by omega) (by norm_num)

lemma total_pages_eq (n cap : Nat) (hn : 0 < n) (hcap : 0 < cap) :
    total_pages n cap = (n + cap - 1) / cap := by
  unfold total_pages math_ceil_div
  have h1 : 1 ≤ (n + cap - 1) / cap := (Nat.one_le_div_iff hcap).mpr (by omega)
  exact max_eq_right h1

lemma le_total_pages_mul (n cap : Nat) (hn : 0 < n) (hcap : 0 < cap) :
    n ≤ total_pages n cap * cap := by
  rw [total_pages_eq n cap hn hcap]
  exact le_ceil_formula_mul n cap hcap

lemma pred_total_pages_mul_lt (n cap : Nat) (hn : 0 < n) (hcap : 0 < cap) :
    (total_pages n cap - 1) * cap < n := by
  rw [total_pages_eq n cap hn hcap]
  have h1 : (n + cap - 1) / cap * cap ≤ n + cap - 1 := Nat.div_mul_le_self _ _
  calc ((n + cap - 1) / cap - 1) * cap
      = (n + cap - 1) / cap * cap - 1 * cap := Nat.sub_mul _ _ _
    _ ≤ (n + cap - 1) - 1 * cap := Nat.sub_le_sub_right h1 _
    _ < n := by omega

lemma layout_chars_nil (rep : Nat) : layout_chars [] rep = [] := rfl

lemma strip_ne_of_stream_ne {isSpace : Char → Bool} {text : List Char}
    {rep : Nat}
    (hs : layout_chars (strip_whitespace isSpace text) rep ≠ []) :
    strip_whitespace isSpace text ≠ [] := by
  intro h
  exact hs (by rw [h, layout_chars_nil])

lemma generate_chunks_eq (isSpace : Char → Bool) (text : List Char)
    (cols rows rep : Nat) (fill blank : Bool)
    (hstrip : strip_whitespace isSpace text ≠ []) :
    generate_multi_page_chunks isSpace text cols rows rep fill blank =
      (List.range (total_pages
          (layout_chars (strip_whitespace isSpace text) rep).length
          (page_capacity cols rows blank))).map
        (fun i => fill_chunk fill (page_capacity cols rows blank)
          (page_chunk (layout_chars (strip_whitespace isSpace text) rep)
            (page_capacity cols rows blank) i)) := by
  unfold generate_multi_page_chunks
  simp [hstrip]

lemma getD_map_range {α : Type} (n : Nat) (f : Nat → α) (i : Nat) (h : i < n)
    (d : α) : ((List.range n).map f).getD i d = f i := by
  simp [List.getD_eq_getElem?_getD, List.getElem?_map, List.getElem?_range, h]

lemma fill_chunk_false (cap : Nat) (s : List Char) :
    fill_chunk false cap s = s := by
  simp [fill_chunk]

lemma page_chunk_length (l : List Char) (cap i : Nat) :
    (page_chunk l cap i).length = min cap (l.length - i * cap) := by
  simp [page_chunk]

lemma page_chunk_length_of_lt (l : List Char) (cap i : Nat) (hn : 0 < l.length)
    (hcap : 0 < cap) (hi : i + 1 < total_pages l.length cap) :
    (page_chunk l cap i).length = cap := by
  have h1 : i + 1 ≤ total_pages l.length cap - 1 := by omega
  have h2 : (i + 1) * cap ≤ (total_pages l.length cap - 1) * cap :=
    Nat.mul_le_mul_right _ h1
  have h3 := pred_total_pages_mul_lt l.length cap hn hcap
  have h4 : (i + 1) * cap = i * cap + cap := by ring
  rw [page_chunk_length]
  omega

lemma page_chunk_last_ne_nil (l : List Char) (cap i : Nat) (hn : 0 < l.length)
    (hcap : 0 < cap) (hi : i + 1 = total_pages l.length cap) :
    page_chunk l cap i ≠ [] := by
  have hp := pred_total_pages_mul_lt l.length cap hn hcap
  have hNi : total_pages l.length cap - 1 = i := by omega
  rw [hNi] at hp
  have h := page_chunk_length l cap i
  intro hnil
  rw [hnil] at h
  simp at h
  omega

lemma join_page_chunks (l : List Char) (cap N : Nat) (h : l.length ≤ N * cap) :
    ((List.range N).map (fun i => page_chunk l cap i)).flatten = l := by
  induction N generalizing l with
  | zero =>
    have : l = [] :=
      List.eq_nil_of_length_eq_zero (Nat.le_zero.mp (by simpa using h))
    simp [this]
  | succ N ih =>
    have hlen : (l.drop cap).length ≤ N * cap := by
      rw [List.length_drop]
      have hsucc : (N + 1) * cap = N * cap + cap := by ring
      omega
    have hcomp : ∀ i, page_chunk l cap (i + 1) = page_chunk (l.drop cap) cap i := by
      intro i
      unfold page_chunk
      rw [List.drop_drop]
      congr 2
      ring
    calc ((List.range (N + 1)).map (page_chunk l cap)).flatten
        = (page_chunk l cap 0 ::
            (List.range N).map (fun i => page_chunk l cap (i + 1))).flatten := by
          rw [List.range_succ_eq_map, List.map_cons, List.map_map]
          rfl
      _ = l.take cap ++
            ((List.range N).map
              (fun i => page_chunk (l.drop cap) cap i)).flatten := by
          rw [List.flatten_cons, show page_chunk l cap 0 = l.take cap from by
            simp [page_chunk]]
          congr 2
          exact List.map_congr_left (fun i _ => hcomp i)
      _ = l.take cap ++ l.drop cap := by rw [ih (l.drop cap) hlen]
      _ = l := List.take_append_drop cap l

lemma sum_lengths_chunks (l : List Char) (cap N : Nat) (h : l.length ≤ N * cap) :
    (((List.range N).map (fun i => page_chunk l cap i)).map List.length).sum
      = l.length := by
  rw [← List.length_flatten, join_page_chunks l cap N h]

lemma fill_chunk_length_ge (f : Bool) (cap : Nat) (s : List Char) :
    s.length ≤ (fill_chunk f cap s).length := by
  unfold fill_chunk
  split <;> simp

lemma layout_chars_eq_flatMap (l : List Char) (rep : Nat) :
    layout_chars l rep = l.flatMap (fun c => List.replicate rep c) := by
  suffices h : ∀ acc, l.foldl (fun r ch => r ++ List.replicate rep ch) acc
      = acc ++ l.flatMap (fun c => List.replicate rep c) by
    simpa [layout_chars] using h []
  induction l with
  | nil => intro acc; simp
  | cons ch t ih => intro acc; simp [List.foldl_cons, ih]

lemma foldl_cells_no_demo (page_chars : List Char) (blank : Bool)
    (ox oy cs : Nat) (gt : String) (gc tc : Nat × Nat × Nat) (alpha mdc : Nat) :
    ∀ (l : List (Nat × Nat)) (acc : PageRender × Nat),
      ((l.foldl (page_cell_step page_chars false blank ox oy cs gt gc tc alpha
          mdc) acc).1).textOps = (acc.1).textOps := by
  intro l
  induction l with
  | nil => intro acc; rfl
  | cons rc t ih =>
    intro acc
    rw [List.foldl_cons, ih]
    unfold page_cell_step
    simp

lemma page_cell_step_gridOps (page_chars : List Char) (sd blank : Bool)
    (ox oy cs : Nat) (gt : String) (gc tc : Nat × Nat × Nat) (alpha mdc : Nat)
    (acc : PageRender × Nat) (rc : Nat × Nat) :
    ((page_cell_step page_chars sd blank ox oy cs gt gc tc alpha mdc acc
        rc).1).gridOps
      = (acc.1).gridOps ++ draw_grid (ox + rc.2 * cs) (oy + rc.1 * cs) cs gt gc := by
  unfold page_cell_step
  dsimp only
  split <;> split <;> rfl

lemma foldl_cells_gridOps (page_chars : List Char) (blank : Bool)
    (ox oy cs : Nat) (gt : String) (gc tc : Nat × Nat × Nat) (alpha mdc : Nat)
    (sd1 sd2 : Bool) :
    ∀ (l : List (Nat × Nat)) (acc1 acc2 : PageRender × Nat),
      (acc1.1).gridOps = (acc2.1).gridOps →
      ((l.foldl (page_cell_step page_chars sd1 blank ox oy cs gt gc tc alpha
          mdc) acc1).1).gridOps
        = ((l.foldl (page_cell_step page_chars sd2 blank ox oy cs gt gc tc alpha
            mdc) acc2).1).gridOps := by
  intro l
  induction l with
  | nil => intro a1 a2 h; exact h
  | cons rc t ih =>
    intro a1 a2 h
    rw [List.foldl_cons, List.foldl_cons]
    apply ih
    rw [page_cell_step_gridOps, page_cell_step_gridOps, h]

lemma try_fallbacks_eq_find (env : FontEnv) (size : Nat) (l : List String) :
    try_fallbacks env size l
      = (l.find? (fun fb => env.ok fb size)).map
          (fun fb => (Font.truetype fb size,
            (⟨fb, env.family fb, env.style fb,
              "回退字体（" ++ fb ++ "）"⟩ : FontInfo))) := by
  induction l with
  | nil => rfl
  | cons fb rest ih =>
    unfold try_fallbacks try_path
    by_cases h : env.ok fb size
    · simp [h, List.find?_cons_of_pos]
    · simp only [h, if_neg, List.find?_cons_of_neg, ih]
      simp [h]

/-! The claims. -/

/-- Claim C1: for every non-empty character stream, the paginator's page
capacity equals `columns × (rows if !skip_alternate_rows else
ceil(rows/2))`, it produces `max(1, ceil(len(stream) / capacity))` pages,
and (before the separate last-page fill step, i.e. with `fill_last_page`
off) chunk `i` equals the slice `stream[i·cap : (i+1)·cap]`. -/
theorem C1_paginator_pages_and_chunks
    (isSpace : Char → Bool) (text : List Char) (cols rows rep : Nat)
    (fill_last_page blank_row_after_each : Bool)
    (hcols : 0 < cols) (hrows : 0 < rows)
    (hs : layout_chars (strip_whitespace isSpace text) rep ≠ []) :
    perPageCapacity_by_spec cols rows blank_row_after_each
        = page_capacity cols rows blank_row_after_each ∧
    (generate_multi_page_chunks isSpace text cols rows rep fill_last_page
        blank_row_after_each).length
      = totalPages_by_spec
          (layout_chars (strip_whitespace isSpace text) rep).length
          (perPageCapacity_by_spec cols rows blank_row_after_each) ∧
    (fill_last_page = false →
      ∀ i, i < (generate_multi_page_chunks isSpace text cols rows rep
          fill_last_page blank_row_after_each).length →
        (generate_multi_page_chunks isSpace text cols rows rep fill_last_page
            blank_row_after_each).getD i []
          = ((layout_chars (strip_whitespace isSpace text) rep).drop
                (i * perPageCapacity_by_spec cols rows blank_row_after_each)).take
              (perPageCapacity_by_spec cols rows blank_row_after_each)) := by
  have hstrip := strip_ne_of_stream_ne hs
  have hcap := page_capacity_pos cols rows blank_row_after_each hcols hrows
  have hgen := generate_chunks_eq isSpace text cols rows rep fill_last_page
    blank_row_after_each hstrip
  refine ⟨perPageCapacity_eq cols rows blank_row_after_each, ?_, ?_⟩
  · rw [hgen, List.length_map, List.length_range, perPageCapacity_eq,
      totalPages_by_spec_eq _ _ hcap]
  · intro hfill i hi
    rw [hgen, List.length_map, List.length_range] at hi
    rw [hgen, getD_map_range _ _ i hi, hfill, fill_chunk_false,
      perPageCapacity_eq]
    rfl

theorem C1_paginator_witness :
    perPageCapacity_by_spec 5 1 false = page_capacity 5 1 false ∧
    (generate_multi_page_chunks pyIsSpace (['A', 'B']) 5 1 3 false false).length
      = totalPages_by_spec
          (layout_chars (strip_whitespace pyIsSpace (['A', 'B'])) 3).length
          (perPageCapacity_by_spec 5 1 false) ∧
    (false = false →
      ∀ i, i < (generate_multi_page_chunks pyIsSpace (['A', 'B']) 5 1 3 false
          false).length →
        (generate_multi_page_chunks pyIsSpace (['A', 'B']) 5 1 3 false
            false).getD i []
          = ((layout_chars (strip_whitespace pyIsSpace (['A', 'B'])) 3).drop
                (i * perPageCapacity_by_spec 5 1 false)).take
              (perPageCapacity_by_spec 5 1 false)) :=
  C1_paginator_pages_and_chunks pyIsSpace (['A', 'B']) 5 1 3 false false
    (by decide) (by decide) (by decide)

/-- Claim C2: with `fill_last_page` on, the final chunk, when non-empty but
shorter than the page capacity, is padded by repeating its last character
up to exactly the capacity, while every other chunk is the unpadded slice;
in particular the stream `[A,A,A,B,B,B]` at capacity 5 yields the second
page `[B,B,B,B,B]`. -/
theorem C2_fill_last_page_padding
    (isSpace : Char → Bool) (text : List Char) (cols rows rep : Nat)
    (blank_row_after_each : Bool) (hcols : 0 < cols) (hrows : 0 < rows)
    (hs : layout_chars (strip_whitespace isSpace text) rep ≠ []) :
    (∀ i, i < (generate_multi_page_chunks isSpace text cols rows rep true
        blank_row_after_each).length →
      (generate_multi_page_chunks isSpace text cols rows rep true
          blank_row_after_each).getD i []
        = (if i + 1 = (generate_multi_page_chunks isSpace text cols rows rep true
              blank_row_after_each).length ∧
            (page_chunk (layout_chars (strip_whitespace isSpace text) rep)
                (page_capacity cols rows blank_row_after_each) i).length
              < page_capacity cols rows blank_row_after_each then
          page_chunk (layout_chars (strip_whitespace isSpace text) rep)
              (page_capacity cols rows blank_row_after_each) i
            ++ List.replicate
              (page_capacity cols rows blank_row_after_each -
                (page_chunk (layout_chars (strip_whitespace isSpace text) rep)
                  (page_capacity cols rows blank_row_after_each) i).length)
              ((page_chunk (layout_chars (strip_whitespace isSpace text) rep)
                  (page_capacity cols rows blank_row_after_each) i).getLastD ' ')
        else
          page_chunk (layout_chars (strip_whitespace isSpace text) rep)
            (page_capacity cols rows blank_row_after_each) i)) ∧
    generate_multi_page_chunks pyIsSpace (['A', 'B']) 5 1 3 true false =
      [['A', 'A', 'A', 'B', 'B'], ['B', 'B', 'B', 'B', 'B']] := by
  have hstrip := strip_ne_of_stream_ne hs
  have hcap := page_capacity_pos cols rows blank_row_after_each hcols hrows
  have hn : 0 < (layout_chars (strip_whitespace isSpace text) rep).length :=
    List.length_pos.mpr hs
  have hgen := generate_chunks_eq isSpace text cols rows rep true
    blank_row_after_each hstrip
  constructor
  · intro i hi
    rw [hgen, List.length_map, List.length_range] at hi
    rw [hgen, List.length_map, List.length_range, getD_map_range _ _ i hi]
    by_cases hlast : i + 1 = total_pages
        (layout_chars (strip_whitespace isSpace text) rep).length
        (page_capacity cols rows blank_row_after_each)
    · by_cases hshort :
          (page_chunk (layout_chars (strip_whitespace isSpace text) rep)
              (page_capacity cols rows blank_row_after_each) i).length
            < page_capacity cols rows blank_row_after_each
      · have hne := page_chunk_last_ne_nil
          (layout_chars (strip_whitespace isSpace text) rep)
          (page_capacity cols rows blank_row_after_each) i hn hcap hlast
        simp [fill_chunk, hshort, hne, hlast]
      · simp [fill_chunk, hshort, hlast]
    · have hlt : i + 1 < total_pages
          (layout_chars (strip_whitespace isSpace text) rep).length
          (page_capacity cols rows blank_row_after_each) := by omega
      have hlen := page_chunk_length_of_lt
        (layout_chars (strip_whitespace isSpace text) rep)
        (page_capacity cols rows blank_row_after_each) i hn hcap hlt
      simp [fill_chunk, hlen, hlast]
  · decide

theorem C2_fill_last_page_witness :
    generate_multi_page_chunks pyIsSpace (['A', 'B']) 5 1 3 true false =
      [['A', 'A', 'A', 'B', 'B'], ['B', 'B', 'B', 'B', 'B']] :=
  (C2_fill_last_page_padding pyIsSpace (['A', 'B']) 5 1 3 false (by decide)
    (by decide) (by decide)).2

/-- Claim C3, counterexample: the claim asserts that the total chunk length
equals the stream length exactly when `fill_last_page` is false; but for
the stream `[A]` with capacity 1 and `fill_last_page = true` the sum also
equals the stream length (the final chunk is already full, so nothing is
padded), refuting the claimed equivalence at this input. -/
theorem C3_sum_lengths_counterexample :
    ¬ ((((generate_multi_page_chunks pyIsSpace (['A']) 1 1 1 true false).map
          List.length).sum
        = (layout_chars (strip_whitespace pyIsSpace (['A'])) 1).length)
      ↔ (true = false)) := by
  decide

/-- Claim C3, amended: for every non-empty character stream the sum of the
chunk lengths is at least the stream length, with equality whenever
`fill_last_page` is false (equality may also hold with the fill enabled,
when the final chunk is already exactly full). -/
theorem C3_sum_lengths_amended
    (isSpace : Char → Bool) (text : List Char) (cols rows rep : Nat)
    (fill_last_page blank_row_after_each : Bool)
    (hcols : 0 < cols) (hrows : 0 < rows)
    (hs : layout_chars (strip_whitespace isSpace text) rep ≠ []) :
    (layout_chars (strip_whitespace isSpace text) rep).length ≤
      ((generate_multi_page_chunks isSpace text cols rows rep fill_last_page
          blank_row_after_each).map List.length).sum ∧
    (fill_last_page = false →
      ((generate_multi_page_chunks isSpace text cols rows rep fill_last_page
          blank_row_after_each).map List.length).sum
        = (layout_chars (strip_whitespace isSpace text) rep).length) := by
  have hstrip := strip_ne_of_stream_ne hs
  have hcap := page_capacity_pos cols rows blank_row_after_each hcols hrows
  have hn : 0 < (layout_chars (strip_whitespace isSpace text) rep).length :=
    List.length_pos.mpr hs
  have hle := le_total_pages_mul
    (layout_chars (strip_whitespace isSpace text) rep).length
    (page_capacity cols rows blank_row_after_each) hn hcap
  constructor
  · rw [generate_chunks_eq isSpace text cols rows rep fill_last_page
      blank_row_after_each hstrip]
    calc (layout_chars (strip_whitespace isSpace text) rep).length
        = (((List.range (total_pages
              (layout_chars (strip_whitespace isSpace text) rep).length
              (page_capacity cols rows blank_row_after_each))).map
            (fun i => page_chunk
              (layout_chars (strip_whitespace isSpace text) rep)
              (page_capacity cols rows blank_row_after_each) i)).map
            List.length).sum := (sum_lengths_chunks _ _ _ hle).symm
      _ ≤ _ := by
          rw [List.map_map, List.map_map]
          apply List.sum_le_sum
          intro i _
          exact fill_chunk_length_ge _ _ _
  · intro hfill
    subst hfill
    rw [generate_chunks_eq isSpace text cols rows rep false
      blank_row_after_each hstrip]
    simp only [fill_chunk_false]
    exact sum_lengths_chunks _ _ _ hle

theorem C3_sum_lengths_witness :
    (layout_chars (strip_whitespace pyIsSpace (['A', 'B'])) 3).length ≤
      ((generate_multi_page_chunks pyIsSpace (['A', 'B']) 5 1 3 true false).map
        List.length).sum ∧
    (true = false →
      ((generate_multi_page_chunks pyIsSpace (['A', 'B']) 5 1 3 true false).map
        List.length).sum
        = (layout_chars (strip_whitespace pyIsSpace (['A', 'B'])) 3).length) :=
  C3_sum_lengths_amended pyIsSpace (['A', 'B']) 5 1 3 true false (by decide)
    (by decide) (by decide)

/-- Claim C4: the character stream is the input text with all whitespace
characters removed and then each remaining character replicated
`repeat_count` times contiguously in input order; for the text `AB` with
`repeat_each = 3` the stream is `[A,A,A,B,B,B]`. -/
theorem C4_character_stream (isSpace : Char → Bool) (text : List Char)
    (rep : Nat) (_hrep : 1 ≤ rep) :
    layout_chars (strip_whitespace isSpace text) rep
      = (text.filter (fun c => !(isSpace c))).flatMap
          (fun c => List.replicate rep c) ∧
    layout_chars (strip_whitespace pyIsSpace (['A', 'B'])) 3
      = ['A', 'A', 'A', 'B', 'B', 'B'] :=
  ⟨layout_chars_eq_flatMap _ _, by decide⟩

theorem C4_character_stream_witness :
    1 ≤ 3 ∧
    (layout_chars (strip_whitespace pyIsSpace (['A', 'B'])) 3
      = ((['A', 'B'] : List Char).filter (fun c => !(pyIsSpace c))).flatMap
          (fun c => List.replicate 3 c) ∧
    layout_chars (strip_whitespace pyIsSpace (['A', 'B'])) 3
      = ['A', 'A', 'A', 'B', 'B', 'B']) :=
  ⟨by decide, C4_character_stream pyIsSpace (['A', 'B']) 3 (by decide)⟩

/-- Claim C5: for input consisting solely of whitespace characters
(including no characters at all), generation produces zero chunks, zero
page images, and the exported document is the empty byte string — a no-op,
not an error. -/
theorem C5_whitespace_noop {α : Type} (render : List Char → α)
    (encode : List α → List Nat) (isSpace : Char → Bool) (text : List Char)
    (cols rows rep : Nat) (fill_last_page blank_row_after_each : Bool)
    (hws : ∀ c ∈ text, isSpace c = true) :
    generate_multi_page_chunks isSpace text cols rows rep fill_last_page
        blank_row_after_each = [] ∧
    generate_multi_page_images render isSpace text cols rows rep fill_last_page
        blank_row_after_each = [] ∧
    images_to_pdf encode
      (generate_multi_page_images render isSpace text cols rows rep
        fill_last_page blank_row_after_each) = [] := by
  have hstrip : strip_whitespace isSpace text = [] := by
    simp only [strip_whitespace, List.filter_eq_nil_iff]
    intro c hc
    simp [hws c hc]
  have h1 : generate_multi_page_chunks isSpace text cols rows rep fill_last_page
      blank_row_after_each = [] := by
    unfold generate_multi_page_chunks
    simp [hstrip]
  have h2 : generate_multi_page_images render isSpace text cols rows rep
      fill_last_page blank_row_after_each = [] := by
    unfold generate_multi_page_images
    rw [h1]
    rfl
  refine ⟨h1, h2, ?_⟩
  rw [h2]
  rfl

theorem C5_whitespace_noop_witness :
    (∀ c ∈ ([' ', '\n'] : List Char), pyIsSpace c = true) ∧
    (generate_multi_page_chunks pyIsSpace ([' ', '\n']) 10 14 1 false false
        = [] ∧
    generate_multi_page_images (fun s : List Char => s) pyIsSpace ([' ', '\n'])
        10 14 1 false false = [] ∧
    images_to_pdf (fun _ => ([] : List Nat))
      (generate_multi_page_images (fun s : List Char => s) pyIsSpace
        ([' ', '\n']) 10 14 1 false false) = []) :=
  ⟨by decide,
   C5_whitespace_noop (fun s : List Char => s) (fun _ => ([] : List Nat))
     pyIsSpace ([' ', '\n']) 10 14 1 false false (by decide)⟩

/-- Claim C6: a page rendered with `show_demo = false` places no glyph at
all — the text overlay stays empty (hence fully transparent, with no pixel
of the text color at any alpha) — regardless of the supplied characters,
colors and tracing depth, and the grid decoration is exactly the one drawn
with `show_demo = true`. -/
theorem C6_no_demo_no_glyphs (page_chars : List Char)
    (grid_type grid_color_name text_color_name demo_level : String)
    (cols rows : Nat) (blank_row_after_each : Bool) :
    (generate_single_page_image page_chars grid_type grid_color_name
        text_color_name demo_level cols rows false blank_row_after_each).textOps
      = [] ∧
    (generate_single_page_image page_chars grid_type grid_color_name
        text_color_name demo_level cols rows false blank_row_after_each).gridOps
      = (generate_single_page_image page_chars grid_type grid_color_name
          text_color_name demo_level cols rows true
          blank_row_after_each).gridOps := by
  constructor
  · unfold generate_single_page_image
    rw [foldl_cells_no_demo]
  · unfold generate_single_page_image
    apply foldl_cells_gridOps
    rfl

/-- Claim C7, counterexample: for cell size 9 the code's second inset
rectangle sits at margin `2 * (9 div 6) = 2`, not at the spec's
`9 div 3 = 3`, so the drawn primitives differ from the spec's nested box. -/
theorem C7_nested_box_counterexample :
    draw_huigongge 0 0 9 (0, 0, 0) ≠ huigongge_by_spec 0 0 9 (0, 0, 0) := by
  decide

/-- Claim C7, amended: the nested-box style draws the outer rectangle plus
two inset rectangles at margins `size div 6` and `2 * (size div 6)`; the
second margin coincides with the spec's `size / 3` exactly when
`size mod 6 < 3` (in particular whenever 6 divides the cell size). -/
theorem C7_nested_box_amended (x y size : Nat) (color : Nat × Nat × Nat)
    (h : size % 6 < 3) :
    draw_huigongge x y size color
      = [Prim.rect x y (x + size) (y + size) color 2,
         Prim.rect (x + size / 6) (y + size / 6)
           (x + size - size / 6) (y + size - size / 6) color 1,
         Prim.rect (x + size / 6 * 2) (y + size / 6 * 2)
           (x + size - size / 6 * 2) (y + size - size / 6 * 2) color 1] ∧
    draw_huigongge x y size color = huigongge_by_spec x y size color := by
  have h36 : size / 3 = size / 6 * 2 := by omega
  refine ⟨rfl, ?_⟩
  simp only [draw_huigongge, huigongge_by_spec]
  rw [h36]

theorem C7_nested_box_witness :
    6 % 6 < 3 ∧
    draw_huigongge 0 0 6 (200, 0, 0) = huigongge_by_spec 0 0 6 (200, 0, 0) :=
  ⟨by decide, (C7_nested_box_amended 0 0 6 (200, 0, 0) (by decide)).2⟩

/-- Claim C8: font resolution is total and tries the requested path when
non-empty, then the fixed CJK fallback list in order, then the built-in
default, and the returned metadata's source label identifies which of the
three stages supplied the handle. -/
theorem C8_load_font_resolution (env : FontEnv) (font_path : String)
    (size : Nat) :
    ((font_path ≠ "" ∧ env.ok font_path size = true) →
      load_font env font_path size
        = (Font.truetype font_path size,
           ⟨font_path, env.family font_path, env.style font_path,
            "用户选择字体"⟩)) ∧
    ((font_path = "" ∨ env.ok font_path size = false) →
      load_font env font_path size
        = (match font_fallbacks.find? (fun fb => env.ok fb size) with
           | some fb => (Font.truetype fb size,
               (⟨fb, env.family fb, env.style fb,
                 "回退字体（" ++ fb ++ "）"⟩ : FontInfo))
           | none => (Font.load_default,
               ⟨"Pillow 内置默认字体（可能不支持中文）", env.default_family,
                env.default_style, "Pillow 默认字体"⟩))) := by
  constructor
  · rintro ⟨hne, hok⟩
    unfold load_font try_path
    simp [hne, hok]
  · intro h
    unfold load_font
    have hreq : (if font_path ≠ "" then
        try_path env size font_path "用户选择字体" else none) = none := by
      rcases h with h | h
      · simp [h]
      · unfold try_path
        simp [h]
    rw [hreq, try_fallbacks_eq_find]
    cases hf : font_fallbacks.find? (fun fb => env.ok fb size) <;> simp

theorem C8_load_font_witness :
    ("" = "" ∨ font_env_for_tests.ok "" 40 = false) ∧
    load_font font_env_for_tests "" 40
      = (Font.truetype "simhei.ttf" 40,
         ⟨"simhei.ttf", "SimHei", "Regular", "回退字体（simhei.ttf）"⟩) :=
  ⟨Or.inl rfl,
   ((C8_load_font_resolution font_env_for_tests "" 40).2 (Or.inl rfl)).trans
     (by rfl)⟩

/-- Claim C9, counterexample: for a dataset that is registered but whose
backing directory is missing, `poems_as_text` raises (`os.listdir` throws
`FileNotFoundError`) instead of returning an empty list with a warning. -/
theorem C9_loader_counterexample :
    poems_as_text corpus_fs_missing loader_cfg_for_tests "tang"
      = Except.error ("FileNotFoundError: ./chinese-poetry/json/") := by
  rfl

/-- Claim C9, amended: only an unknown dataset identifier degrades
gracefully — `poems_as_text` then logs a warning and returns the empty
list; when a registered dataset's backing files are unavailable the loader
raises instead of degrading. -/
theorem C9_loader_unknown_dataset (fs : CorpusFS) (cfg : LoaderConfig)
    (target : String) (h : cfg.datasets.lookup target = none) :
    poems_as_text fs cfg target
      = Except.ok ([target ++ " is not included in datas.json as a dataset"],
          ([] : List String)) := by
  unfold poems_as_text
  rw [h]

theorem C9_loader_witness :
    loader_cfg_for_tests.datasets.lookup "song" = none ∧
    poems_as_text corpus_fs_missing loader_cfg_for_tests "song"
      = Except.ok (["song is not included in datas.json as a dataset"],
          ([] : List String)) :=
  ⟨by rfl,
   (C9_loader_unknown_dataset corpus_fs_missing loader_cfg_for_tests "song"
     (by rfl)).trans (by rfl)⟩

/-- Claim C10: the grid-color mapping and the text-color mapping agree on
every name, sending 绿色 to (0,160,0), 红色 to (200,0,0), and every other
string, including unknown names, to black (0,0,0). -/
theorem C10_color_mappings (name : String) :
    get_grid_color name = get_text_color name ∧
    get_grid_color "绿色" = (0, 160, 0) ∧
    get_text_color "绿色" = (0, 160, 0) ∧
    get_grid_color "红色" = (200, 0, 0) ∧
    get_text_color "红色" = (200, 0, 0) ∧
    (name ≠ "绿色" → name ≠ "红色" → get_grid_color name = (0, 0, 0)) := by
  refine ⟨rfl, by decide, by decide, by decide, by decide, ?_⟩
  intro h1 h2
  unfold get_grid_color
  rw [if_neg h1, if_neg h2]

theorem C10_color_mappings_witness :
    "黑色" ≠ "绿色" ∧ "黑色" ≠ "红色" ∧
    get_grid_color "黑色" = (0, 0, 0) :=
  ⟨by decide, by decide,
   (C10_color_mappings "黑色").2.2.2.2.2 (by decide) (by decide)⟩

end Zitie
